import Mathlib

/-!
Verification development for the authentication subsystem of the Score
repository: the Supabase-backed repository adapter, the application-level
AuthService, the auth state observer/store, and the server-side session
reader. Each TypeScript function is shallowly embedded as a pure Lean
function over explicit provider-response values; asynchronous calls that can
throw are embedded as `Except`-valued functions, and the ambient clock
(`Date.now()`) is passed explicitly as a natural number of milliseconds.
-/

/-- Truthiness of an optional JavaScript string: `undefined` and the empty
string are falsy, every other string is truthy. -/
def jsStrTruthy : Option String → Bool
  | none => false
  | some s => s != ""

/-- Truthiness of an optional JavaScript number (for `expires_at`):
`undefined` and `0` are falsy. -/
def jsNatTruthy : Option Nat → Bool
  | none => false
  | some n => n != 0

/-- ASCII lowering standing in for JavaScript `String.prototype.toLowerCase`
(all message text involved is ASCII). -/
def jsToLower (s : String) : String := String.mk (s.data.map Char.toLower)

/-- Substring test over character lists, standing in for JavaScript
`String.prototype.includes`. -/
def listIsInfix (needle hay : List Char) : Bool :=
  match hay with
  | [] => needle.isEmpty
  | _ :: t => needle.isPrefixOf hay || listIsInfix needle t

/-- JavaScript `s.includes(pat)`. -/
def strIncludes (s pat : String) : Bool := listIsInfix pat.data s.data

/-- Model of a JavaScript `Date` value, recording exactly how the code
constructs it: `new Date(isoString)` or `new Date(milliseconds)`; a bare
`new Date()` is `ofMillis now`. -/
inductive JsDate where
  | ofString : String → JsDate
  | ofMillis : Nat → JsDate
deriving DecidableEq, Repr

/-- Model of an arbitrary JavaScript thrown value as seen through
`instanceof Error`: either an `Error` object (possibly carrying a `code`
field) or some non-Error value. -/
structure AuthErrorWithCode where
  message : String
  code : Option String
deriving DecidableEq, Repr

/-- Thrown JavaScript value: an `Error` object or anything else. -/
inductive JsThrown where
  | errObj : AuthErrorWithCode → JsThrown
  | nonError : JsThrown
deriving DecidableEq, Repr

/-- Domain `AuthUser` record (src/auth/domain/AuthUser). -/
structure AuthUser where
  id : String
  email : String
  createdAt : JsDate
  updatedAt : JsDate
deriving DecidableEq, Repr

/-- Domain `AuthSession` record (src/auth/domain/AuthSession). -/
structure AuthSession where
  accessToken : String
  refreshToken : String
  expiresAt : JsDate
  user : AuthUser
deriving DecidableEq, Repr

/-- Supabase wire-shape user: `{id, email?, created_at?, updated_at?,
identities?}`. Only the presence and length of `identities` is ever
inspected, so its elements are modelled as abstract strings; `none` covers
both an absent and a null identities field (`Array.isArray` rejects both). -/
structure SupaUser where
  id : String
  email : Option String
  created_at : Option String
  updated_at : Option String
  identities : Option (List String)
deriving DecidableEq, Repr

/-- Supabase wire-shape (non-null) session: `{access_token, refresh_token,
expires_at?, user}`. -/
structure SupaSession where
  access_token : String
  refresh_token : String
  expires_at : Option Nat
  user : SupaUser
deriving DecidableEq, Repr

/-- Supabase error shape consumed by the adapter: `{code?, message}`. -/
structure SupabaseErrorLike where
  code : Option String
  message : String
deriving DecidableEq, Repr

/-- Embedding of the JavaScript ternary `o ? new Date(o) : new Date()` used
for `created_at` / `updated_at` defaults (an empty string is falsy). -/
def dateFromOptString (o : Option String) (now : Nat) : JsDate :=
  if jsStrTruthy o then JsDate.ofString (o.getD "") else JsDate.ofMillis now

/-- Embedding of `expires_at ? new Date(expires_at * 1000) : new
Date(Date.now() + 3600 * 1000)` (the number 0 is falsy). -/
def dateFromOptUnixSeconds (o : Option Nat) (now : Nat) : JsDate :=
  if jsNatTruthy o then JsDate.ofMillis (o.getD 0 * 1000)
  else JsDate.ofMillis (now + 3600 * 1000)

/-- Helper `createAuthError(message, code?)` from
SupabaseAuthRepository.ts: attaches `code` only when it is truthy. -/
def createAuthError (message : String) (code : Option String) : AuthErrorWithCode :=
  if jsStrTruthy code then { message := message, code := code }
  else { message := message, code := none }

/-- Helper `isDuplicateSignUpError` from SupabaseAuthRepository.ts. -/
def isDuplicateSignUpError (error : SupabaseErrorLike) : Bool :=
  let normalizedCode := error.code.map jsToLower
  let normalizedMessage := jsToLower error.message
  if normalizedCode == some "user_already_exists" || normalizedCode == some "email_exists" then
    true
  else
    strIncludes normalizedMessage "already registered" ||
    strIncludes normalizedMessage "already been registered" ||
    strIncludes normalizedMessage "already exists"

/-- Helper `isExistingUserObfuscatedSignUp` from SupabaseAuthRepository.ts:
`Array.isArray(user.identities) && user.identities.length === 0`. -/
def isExistingUserObfuscatedSignUp (user : SupaUser) : Bool :=
  match user.identities with
  | some l => l.isEmpty
  | none => false

namespace SupabaseAuthRepository

/-- Embedding of the private method `mapSupabaseUserToAuthUser`: throws
`"User email is missing"` when `email` is falsy, otherwise builds the domain
user with `new Date()`-style defaults. -/
def mapSupabaseUserToAuthUser (supabaseUser : SupaUser) (now : Nat) :
    Except AuthErrorWithCode AuthUser :=
  if jsStrTruthy supabaseUser.email then
    .ok {
      id := supabaseUser.id
      email := supabaseUser.email.getD ""
      createdAt := dateFromOptString supabaseUser.created_at now
      updatedAt := dateFromOptString supabaseUser.updated_at now
    }
  else
    .error { message := "User email is missing", code := none }

/-- Embedding of the private method `mapSupabaseSessionToAuthSession` (a
throw inside the nested user mapping propagates). -/
def mapSupabaseSessionToAuthSession (supabaseSession : SupaSession) (now : Nat) :
    Except AuthErrorWithCode AuthSession :=
  match mapSupabaseUserToAuthUser supabaseSession.user now with
  | .error e => .error e
  | .ok user =>
    .ok {
      accessToken := supabaseSession.access_token
      refreshToken := supabaseSession.refresh_token
      expiresAt := dateFromOptUnixSeconds supabaseSession.expires_at now
      user := user
    }

/-- Provider response to `signInWithPassword`: `{data: {user, session}, error}`. -/
structure SignInResponse where
  user : Option SupaUser
  session : Option SupaSession
  error : Option SupabaseErrorLike
deriving DecidableEq, Repr

/-- Successful result shape of the repository `signIn`. -/
structure SignInResult where
  user : AuthUser
  session : AuthSession
deriving DecidableEq, Repr

/-- Embedding of `SupabaseAuthRepository.signIn`, as a function of the
provider response: on a provider error, throws `Error(error.message)` whose
`code` is the provider code when truthy, else is inferred from two known
message patterns, else is unset; on success-shaped responses it requires
both user and session and maps them to domain types. -/
def signIn (resp : SignInResponse) (now : Nat) :
    Except AuthErrorWithCode SignInResult :=
  match resp.error with
  | some error =>
    let code : Option String :=
      if jsStrTruthy error.code then error.code
      else
        let message := jsToLower error.message
        if strIncludes message "email_not_confirmed" ||
           strIncludes message "email not confirmed" then
          some "email_not_confirmed"
        else if strIncludes message "invalid login" ||
                strIncludes message "invalid_credentials" then
          some "invalid_login_credentials"
        else none
    .error { message := error.message, code := code }
  | none =>
    match resp.user, resp.session with
    | some u, some s =>
      match mapSupabaseUserToAuthUser u now with
      | .error e => .error e
      | .ok user =>
        match mapSupabaseSessionToAuthSession s now with
        | .error e => .error e
        | .ok session => .ok { user := user, session := session }
    | _, _ =>
      .error { message := "Sign in succeeded but user or session is missing", code := none }

/-- Provider response to `signUp`: `{data: {user, session}, error}`. The
source destructures only `data.user`; the session field is carried in the
model to state that the adapter ignores it. -/
structure SignUpResponse where
  user : Option SupaUser
  session : Option SupaSession
  error : Option SupabaseErrorLike
deriving DecidableEq, Repr

/-- Successful result shape of the repository `signUp`: user only. -/
structure SignUpResult where
  user : AuthUser
deriving DecidableEq, Repr

/-- Embedding of `SupabaseAuthRepository.signUp`: normalizes explicit
duplicate errors and obfuscated empty-identities successes to the stable
code `user_already_exists`; passes other provider codes through
`createAuthError`; returns the mapped user only. -/
def signUp (resp : SignUpResponse) (now : Nat) :
    Except AuthErrorWithCode SignUpResult :=
  match resp.error with
  | some supabaseError =>
    if isDuplicateSignUpError supabaseError then
      .error (createAuthError supabaseError.message (some "user_already_exists"))
    else
      .error (createAuthError supabaseError.message supabaseError.code)
  | none =>
    match resp.user with
    | none => .error { message := "Sign up failed: User was not created", code := none }
    | some u =>
      if isExistingUserObfuscatedSignUp u then
        .error (createAuthError "User already registered" (some "user_already_exists"))
      else
        match mapSupabaseUserToAuthUser u now with
        | .error e => .error e
        | .ok user => .ok { user := user }

/-- Provider response to `getUser`: `{data: {user}, error}`. -/
structure GetUserResponse where
  user : Option SupaUser
  error : Option SupabaseErrorLike
deriving DecidableEq, Repr

/-- Embedding of `SupabaseAuthRepository.getCurrentUser`. -/
def getCurrentUser (resp : GetUserResponse) (now : Nat) :
    Except AuthErrorWithCode (Option AuthUser) :=
  match resp.error with
  | some error =>
    .error { message := "Failed to get current user: " ++ error.message, code := none }
  | none =>
    match resp.user with
    | none => .ok none
    | some u =>
      match mapSupabaseUserToAuthUser u now with
      | .error e => .error e
      | .ok user => .ok (some user)

/-- Provider response to `getSession`: `{data: {session}, error}`. -/
structure GetSessionResponse where
  session : Option SupaSession
  error : Option SupabaseErrorLike
deriving DecidableEq, Repr

/-- Embedding of `SupabaseAuthRepository.getSession`. -/
def getSession (resp : GetSessionResponse) (now : Nat) :
    Except AuthErrorWithCode (Option AuthSession) :=
  match resp.error with
  | some error =>
    .error { message := "Failed to get session: " ++ error.message, code := none }
  | none =>
    match resp.session with
    | none => .ok none
    | some s =>
      match mapSupabaseSessionToAuthSession s now with
      | .error e => .error e
      | .ok session => .ok (some session)

/-- Provider response carrying only an optional error (`signOut`,
`resetPasswordForEmail`, `updateUser`). -/
structure ErrorOnlyResponse where
  error : Option SupabaseErrorLike
deriving DecidableEq, Repr

/-- Embedding of `SupabaseAuthRepository.signOut`. -/
def signOut (resp : ErrorOnlyResponse) : Except AuthErrorWithCode Unit :=
  match resp.error with
  | some error => .error { message := "Sign out failed: " ++ error.message, code := none }
  | none => .ok ()

/-- Outcome of one awaited provider call: the returned `{..., error}` record,
or a rejection of the underlying promise. -/
inductive ProviderCallOutcome (ρ : Type) where
  | resolves : ρ → ProviderCallOutcome ρ
  | rejects : JsThrown → ProviderCallOutcome ρ
deriving DecidableEq, Repr

/-- Embedding of `SupabaseAuthRepository.requestPasswordReset`: when the
provider call resolves, a reported error is only logged and the method
returns normally; a rejection of the awaited call itself propagates. -/
def requestPasswordReset (outcome : ProviderCallOutcome ErrorOnlyResponse) :
    Except JsThrown Unit :=
  match outcome with
  | .resolves _ => .ok ()
  | .rejects e => .error e

/-- Embedding of `SupabaseAuthRepository.updatePassword`: throws
`Error(error.message)` on a provider error. -/
def updatePassword (resp : ErrorOnlyResponse) : Except AuthErrorWithCode Unit :=
  match resp.error with
  | some error => .error { message := error.message, code := none }
  | none => .ok ()

end SupabaseAuthRepository

namespace AuthService

open SupabaseAuthRepository

/-- Message extraction used by every catch block of AuthService:
`error instanceof Error ? error.message : "Unknown error"`. -/
def caughtMessage : JsThrown → String
  | .errObj e => e.message
  | .nonError => "Unknown error"

/-- Embedding of `AuthService.signIn`, as a function of the repository call
outcome: passes successes through; on any thrown value, throws a fresh
`Error` whose message is prefixed with "Sign in failed: " (a fresh `Error`
carries no `code` field). -/
def signIn (repoOutcome : Except JsThrown SignInResult) :
    Except AuthErrorWithCode SignInResult :=
  match repoOutcome with
  | .ok r => .ok r
  | .error e =>
    .error { message := "Sign in failed: " ++ caughtMessage e, code := none }

/-- Embedding of `AuthService.signUp`: rethrows an `Error` with a non-empty
message unmodified; otherwise wraps as "Sign up failed: ...". -/
def signUp (repoOutcome : Except JsThrown SignUpResult) :
    Except JsThrown SignUpResult :=
  match repoOutcome with
  | .ok r => .ok r
  | .error e =>
    match e with
    | .errObj err =>
      if err.message != "" then .error (.errObj err)
      else .error (.errObj { message := "Sign up failed: " ++ err.message, code := none })
    | .nonError =>
      .error (.errObj { message := "Sign up failed: " ++ caughtMessage e, code := none })

/-- Embedding of `AuthService.requestPasswordReset`: the catch block is
empty, so every repository outcome resolves. -/
def requestPasswordReset (repoOutcome : Except JsThrown Unit) :
    Except JsThrown Unit :=
  match repoOutcome with
  | .ok _ => .ok ()
  | .error _ => .ok ()

/-- Embedding of `AuthService.updatePassword`: on any thrown value, throws a
fresh `Error` prefixed with "Failed to update password: " (no `code`). -/
def updatePassword (repoOutcome : Except JsThrown Unit) :
    Except AuthErrorWithCode Unit :=
  match repoOutcome with
  | .ok _ => .ok ()
  | .error e =>
    .error { message := "Failed to update password: " ++ caughtMessage e, code := none }

end AuthService

/-- Status component of the reactive auth state. -/
inductive AuthStatus where
  | loading
  | authenticated
  | unauthenticated
deriving DecidableEq, Repr

/-- Reactive `AuthState` triple held by the auth state store. -/
structure AuthState where
  user : Option AuthUser
  session : Option AuthSession
  status : AuthStatus
deriving DecidableEq, Repr

namespace SupabaseAuthStateObserver

/-- Initial store value set at construction: `{user: null, session: null,
status: "loading"}`. -/
def initialState : AuthState :=
  { user := none, session := none, status := AuthStatus.loading }

/-- Embedding of the private observer method `mapSupabaseUserToAuthUser`
(textually identical to the repository method). -/
def mapSupabaseUserToAuthUser (supabaseUser : SupaUser) (now : Nat) :
    Except AuthErrorWithCode AuthUser :=
  if jsStrTruthy supabaseUser.email then
    .ok {
      id := supabaseUser.id
      email := supabaseUser.email.getD ""
      createdAt := dateFromOptString supabaseUser.created_at now
      updatedAt := dateFromOptString supabaseUser.updated_at now
    }
  else
    .error { message := "User email is missing", code := none }

/-- Embedding of the private observer method `mapSupabaseSessionToAuthSession`. -/
def mapSupabaseSessionToAuthSession (supabaseSession : SupaSession) (now : Nat) :
    Except AuthErrorWithCode AuthSession :=
  match mapSupabaseUserToAuthUser supabaseSession.user now with
  | .error e => .error e
  | .ok user =>
    .ok {
      accessToken := supabaseSession.access_token
      refreshToken := supabaseSession.refresh_token
      expiresAt := dateFromOptUnixSeconds supabaseSession.expires_at now
      user := user
    }

set_option linter.unusedVariables false in
/-- Embedding of the observer method `handleAuthStateChange(event, session)`: a
non-null session payload maps to an authenticated state (mapping may throw);
a null payload maps to the unauthenticated state. The `event` string is
received but never inspected. -/
def handleAuthStateChange (event : String) (supabaseSession : Option SupaSession)
    (now : Nat) : Except AuthErrorWithCode AuthState :=
  match supabaseSession with
  | some ss =>
    match mapSupabaseUserToAuthUser ss.user now with
    | .error e => .error e
    | .ok user =>
      match mapSupabaseSessionToAuthSession ss now with
      | .error e => .error e
      | .ok session =>
        .ok { user := some user, session := some session, status := AuthStatus.authenticated }
  | none =>
    .ok { user := none, session := none, status := AuthStatus.unauthenticated }

/-- Model of the observer object: its current state and its listener set.
Listeners are identified by numbers; a JavaScript `Set` iterates in
insertion order, so it is modelled as a duplicate-free list. -/
structure ObserverModel where
  state : AuthState
  listeners : List Nat
deriving DecidableEq, Repr

/-- Observer as constructed: initial state, no listeners. -/
def initialObserver : ObserverModel := { state := initialState, listeners := [] }

/-- Embedding of `getSnapshot()`: returns a copy of the current state
(copying is value equality in the model). -/
def getSnapshot (m : ObserverModel) : AuthState := m.state

/-- Embedding of `Set.prototype.add`: appends when absent, keeps insertion
order otherwise. -/
def addListener (ls : List Nat) (id : Nat) : List Nat :=
  if id ∈ ls then ls else ls ++ [id]

/-- External stimulus applied to the observer: a `subscribe` call, a call of
the returned unsubscribe closure, or one event from the provider
auth-change channel (carrying the event string and a nullable session). -/
inductive ObserverOp where
  | subscribeOp (id : Nat)
  | unsubscribeOp (id : Nat)
  | providerEvent (event : String) (session : Option SupaSession)
deriving DecidableEq, Repr

/-- Single-step semantics of the observer. Returns the updated observer and
the list of listener invocations `(listener, delivered state)` the step
performs, in order. `subscribe` adds the listener then synchronously invokes
it once with the current snapshot; a provider event runs
`handleAuthStateChange` and, on success, `updateState` stores the new state
and notifies every listener in insertion order (a mapping throw leaves the
state untouched and notifies no one). -/
def step (m : ObserverModel) (op : ObserverOp) (now : Nat) :
    ObserverModel × List (Nat × AuthState) :=
  match op with
  | .subscribeOp id =>
    ({ m with listeners := addListener m.listeners id }, [(id, getSnapshot m)])
  | .unsubscribeOp id =>
    ({ m with listeners := m.listeners.filter (fun l => l ≠ id) }, [])
  | .providerEvent event session =>
    match handleAuthStateChange event session now with
    | .ok newState =>
      ({ m with state := newState }, m.listeners.map (fun id => (id, newState)))
    | .error _ => (m, [])

/-- Runs a sequence of stimuli from a given observer, collecting every
listener invocation in order. -/
def run (m : ObserverModel) (ops : List ObserverOp) (now : Nat) :
    ObserverModel × List (Nat × AuthState) :=
  match ops with
  | [] => (m, [])
  | op :: rest =>
    let s := step m op now
    let r := run s.1 rest now
    (r.1, s.2 ++ r.2)

end SupabaseAuthStateObserver

namespace ServerSession

open SupabaseAuthRepository

/-- Embedding of the server-side `getSession` utility (a standalone function
reading the cookie-backed Supabase server client): every provider outcome
maps to `null` or to a mapped `AuthSession`; no path throws, which the
`Option` codomain makes structural. -/
def getSession (resp : GetSessionResponse) (now : Nat) : Option AuthSession :=
  match resp.error with
  | some _ => none
  | none =>
    match resp.session with
    | none => none
    | some session =>
      let user := session.user
      if jsStrTruthy user.email then
        let expiresAt := dateFromOptUnixSeconds session.expires_at now
        let authUser : AuthUser := {
          id := user.id
          email := user.email.getD ""
          createdAt := dateFromOptString user.created_at now
          updatedAt := dateFromOptString user.updated_at now
        }
        some {
          accessToken := session.access_token
          refreshToken := session.refresh_token
          expiresAt := expiresAt
          user := authUser
        }
      else none

end ServerSession

/-- Boolean success test for an `Except` value. -/
def exceptIsOk {ε α : Type} : Except ε α → Bool
  | .ok _ => true
  | .error _ => false

/-- Invariant of the reactive auth state claimed by the specification:
authenticated exactly when both user and session are non-null, and
unauthenticated only with both null. -/
abbrev stateInvariant (st : AuthState) : Prop :=
  (st.status = AuthStatus.authenticated ↔ st.user ≠ none ∧ st.session ≠ none) ∧
  (st.status = AuthStatus.unauthenticated → st.user = none ∧ st.session = none)

/-- Strengthened induction invariant for the observer model: the held state
satisfies the state invariant and is still the pristine initial value
whenever its status is `loading`. -/
abbrev goodState (st : AuthState) : Prop :=
  stateInvariant st ∧
  (st.status = AuthStatus.loading → st = SupabaseAuthStateObserver.initialState)

/-- C1: the claim states that when `AuthService.signIn` or
`AuthService.updatePassword` fails because of a coded adapter error, the
wrapped error keeps the same `code`. The service code constructs a fresh
`Error` from the prefixed message and never copies `code`, so the code is
dropped; this theorem evaluates both methods at a concretely coded adapter
failure and shows the surfaced error carries no code. -/
theorem authService_wrap_discards_code :
    AuthService.signIn
        (Except.error (JsThrown.errObj
          { message := "Auth provider error", code := some "email_not_confirmed" })) =
      Except.error { message := "Sign in failed: Auth provider error", code := none } ∧
    AuthService.updatePassword
        (Except.error (JsThrown.errObj
          { message := "Session expired", code := some "invalid_login_credentials" })) =
      Except.error { message := "Failed to update password: Session expired", code := none } := by
  constructor <;> rfl

/-- C3: for every outcome of the underlying provider call — resolving with
or without a reported error, or rejecting — the repository
`requestPasswordReset` composed with the service `requestPasswordReset`
resolves; no failure is observable to the service caller. -/
theorem requestPasswordReset_never_rejects :
    ∀ outcome : SupabaseAuthRepository.ProviderCallOutcome SupabaseAuthRepository.ErrorOnlyResponse,
      AuthService.requestPasswordReset
        (SupabaseAuthRepository.requestPasswordReset outcome) = Except.ok () := by
  intro outcome
  cases outcome <;> rfl

/-- C9: on every failed `signIn`, a truthy provider-native code is copied
verbatim onto the thrown error; otherwise the lower-cased message is
pattern-matched, assigning `email_not_confirmed` and then
`invalid_login_credentials` when the known substrings occur; if neither
matches the thrown error has no code. -/
theorem signIn_code_assignment :
    ∀ (resp : SupabaseAuthRepository.SignInResponse) (pe : SupabaseErrorLike)
      (now : Nat) (e : AuthErrorWithCode),
      resp.error = some pe →
      SupabaseAuthRepository.signIn resp now = Except.error e →
      (jsStrTruthy pe.code = true → e.code = pe.code) ∧
      (jsStrTruthy pe.code = false →
        ((strIncludes (jsToLower pe.message) "email_not_confirmed" ||
          strIncludes (jsToLower pe.message) "email not confirmed") = true →
            e.code = some "email_not_confirmed") ∧
        ((strIncludes (jsToLower pe.message) "email_not_confirmed" ||
          strIncludes (jsToLower pe.message) "email not confirmed") = false →
          ((strIncludes (jsToLower pe.message) "invalid login" ||
            strIncludes (jsToLower pe.message) "invalid_credentials") = true →
              e.code = some "invalid_login_credentials") ∧
          ((strIncludes (jsToLower pe.message) "invalid login" ||
            strIncludes (jsToLower pe.message) "invalid_credentials") = false →
              e.code = none))) := by
  intro resp pe now e herr hrun
  obtain ⟨u, s, err⟩ := resp
  simp only at herr
  subst herr
  simp only [SupabaseAuthRepository.signIn] at hrun
  by_cases h1 : jsStrTruthy pe.code = true
  · refine ⟨fun _ => ?_, fun hf => ?_⟩
    · simp only [h1, if_true] at hrun
      cases hrun
      rfl
    · rw [h1] at hf
      cases hf
  · have h1f : jsStrTruthy pe.code = false := by
      cases hx : jsStrTruthy pe.code
      · rfl
      · exact absurd hx h1
    refine ⟨fun ht => absurd ht h1, fun _ => ?_⟩
    simp only [h1f, Bool.false_eq_true, if_false] at hrun
    by_cases h2 : (strIncludes (jsToLower pe.message) "email_not_confirmed" ||
        strIncludes (jsToLower pe.message) "email not confirmed") = true
    · refine ⟨fun _ => ?_, fun hf => ?_⟩
      · simp only [h2, if_true] at hrun
        cases hrun
        rfl
      · rw [h2] at hf
        cases hf
    · have h2f : (strIncludes (jsToLower pe.message) "email_not_confirmed" ||
          strIncludes (jsToLower pe.message) "email not confirmed") = false := by
        cases hx : (strIncludes (jsToLower pe.message) "email_not_confirmed" ||
            strIncludes (jsToLower pe.message) "email not confirmed")
        · rfl
        · exact absurd hx h2
      refine ⟨fun ht => absurd ht h2, fun _ => ?_⟩
      simp only [h2f, Bool.false_eq_true, if_false] at hrun
      by_cases h3 : (strIncludes (jsToLower pe.message) "invalid login" ||
          strIncludes (jsToLower pe.message) "invalid_credentials") = true
      · refine ⟨fun _ => ?_, fun hf => ?_⟩
        · simp only [h3, if_true] at hrun
          cases hrun
          rfl
        · rw [h3] at hf
          cases hf
      · have h3f : (strIncludes (jsToLower pe.message) "invalid login" ||
            strIncludes (jsToLower pe.message) "invalid_credentials") = false := by
          cases hx : (strIncludes (jsToLower pe.message) "invalid login" ||
              strIncludes (jsToLower pe.message) "invalid_credentials")
          · rfl
          · exact absurd hx h3
        refine ⟨fun ht => absurd ht h3, fun _ => ?_⟩
        simp only [h3f, Bool.false_eq_true, if_false] at hrun
        cases hrun
        rfl

/-- Witness for C9: instantiates the theorem at a provider error carrying no
native code whose message matches the invalid-login pattern. -/
theorem signIn_code_assignment_witness :
    ((jsStrTruthy (some "") = true →
        ({ message := "Invalid login credentials", code := some "invalid_login_credentials" } :
          AuthErrorWithCode).code = some "") ∧
     (jsStrTruthy (some "") = false → True)) ∨
    ({ message := "Invalid login credentials", code := some "invalid_login_credentials" } :
        AuthErrorWithCode).code = some "invalid_login_credentials" := by
  refine Or.inr ?_
  have h := signIn_code_assignment
    { user := none, session := none,
      error := some { code := none, message := "Invalid login credentials" } }
    { code := none, message := "Invalid login credentials" } 0
    { message := "Invalid login credentials", code := some "invalid_login_credentials" }
    rfl (by rfl)
  exact ((h.2 (by decide)).2 (by decide)).1 (by decide)

/-- Counterexample for C2: a success-shaped `signUp` response whose user has
an absent identities list is claimed to resolve as a genuine success, but
when that user also lacks an email the adapter throws the mapping error, so
the call does not succeed. -/
theorem signUp_success_shape_can_still_fail :
    SupabaseAuthRepository.signUp
        { user := some { id := "user-1", email := none, created_at := none,
                         updated_at := none, identities := none },
          session := none, error := none } 0 =
      Except.error { message := "User email is missing", code := none } ∧
    exceptIsOk (SupabaseAuthRepository.signUp
        { user := some { id := "user-1", email := none, created_at := none,
                         updated_at := none, identities := none },
          session := none, error := none } 0) = false := by
  constructor <;> rfl

/-- C2 (amended): an explicit duplicate provider error and an obfuscated
success-shaped response with a present-and-empty identities list both make
`signUp` throw with code `user_already_exists`; a success-shaped response
whose user has a non-empty-or-absent identities list and a (truthy) email
resolves as a genuine success. -/
theorem signUp_duplicate_normalization :
    (∀ (resp : SupabaseAuthRepository.SignUpResponse) (pe : SupabaseErrorLike) (now : Nat),
      resp.error = some pe → isDuplicateSignUpError pe = true →
      SupabaseAuthRepository.signUp resp now =
        Except.error { message := pe.message, code := some "user_already_exists" }) ∧
    (∀ (resp : SupabaseAuthRepository.SignUpResponse) (u : SupaUser) (now : Nat),
      resp.error = none → resp.user = some u → u.identities = some [] →
      SupabaseAuthRepository.signUp resp now =
        Except.error { message := "User already registered", code := some "user_already_exists" }) ∧
    (∀ (resp : SupabaseAuthRepository.SignUpResponse) (u : SupaUser) (now : Nat),
      resp.error = none → resp.user = some u →
      isExistingUserObfuscatedSignUp u = false → jsStrTruthy u.email = true →
      ∃ au, SupabaseAuthRepository.signUp resp now = Except.ok { user := au }) := by
  refine ⟨?_, ?_, ?_⟩
  · intro resp pe now herr hdup
    obtain ⟨u0, s0, err0⟩ := resp
    simp only at herr
    subst herr
    simp only [SupabaseAuthRepository.signUp, hdup, if_true]
    rfl
  · intro resp u now herr huser hid
    obtain ⟨u0, s0, err0⟩ := resp
    simp only at herr huser
    subst herr
    subst huser
    have hobf : isExistingUserObfuscatedSignUp u = true := by
      simp [isExistingUserObfuscatedSignUp, hid, List.isEmpty]
    simp only [SupabaseAuthRepository.signUp, hobf, if_true]
    rfl
  · intro resp u now herr huser hobf hemail
    obtain ⟨u0, s0, err0⟩ := resp
    simp only at herr huser
    subst herr
    subst huser
    simp only [SupabaseAuthRepository.signUp, hobf, Bool.false_eq_true, if_false,
      SupabaseAuthRepository.mapSupabaseUserToAuthUser, hemail, if_true]
    exact ⟨_, rfl⟩

/-- Witness for C2 (amended): instantiates all three clauses at concrete
provider responses. -/
theorem signUp_duplicate_normalization_witness :
    SupabaseAuthRepository.signUp
        { user := none, session := none,
          error := some { code := none, message := "User already registered" } } 0 =
      Except.error { message := "User already registered", code := some "user_already_exists" } ∧
    SupabaseAuthRepository.signUp
        { user := some { id := "u2", email := some "a@b.c", created_at := none,
                         updated_at := none, identities := some [] },
          session := none, error := none } 0 =
      Except.error { message := "User already registered", code := some "user_already_exists" } ∧
    ∃ au, SupabaseAuthRepository.signUp
        { user := some { id := "u3", email := some "a@b.c", created_at := some "2026-01-01",
                         updated_at := none, identities := some ["ident-1"] },
          session := none, error := none } 7 =
      Except.ok { user := au } := by
  refine ⟨?_, ?_, ?_⟩
  · exact signUp_duplicate_normalization.1
      { user := none, session := none,
        error := some { code := none, message := "User already registered" } }
      { code := none, message := "User already registered" } 0 rfl (by decide)
  · exact signUp_duplicate_normalization.2.1
      { user := some { id := "u2", email := some "a@b.c", created_at := none,
                       updated_at := none, identities := some [] },
        session := none, error := none }
      { id := "u2", email := some "a@b.c", created_at := none,
        updated_at := none, identities := some [] } 0 rfl rfl rfl
  · exact signUp_duplicate_normalization.2.2
      { user := some { id := "u3", email := some "a@b.c", created_at := some "2026-01-01",
                       updated_at := none, identities := some ["ident-1"] },
        session := none, error := none }
      { id := "u3", email := some "a@b.c", created_at := some "2026-01-01",
        updated_at := none, identities := some ["ident-1"] } 7 rfl rfl (by decide) (by decide)

/-- C5: the repository `signUp` ignores any session in the provider success
payload — replacing the session component of the response never changes the
result — and every successful result is exactly the mapped user (the result
type `SignUpResult` has no session field). -/
theorem signUp_never_returns_session :
    (∀ (resp : SupabaseAuthRepository.SignUpResponse) (now : Nat) (s : Option SupaSession),
      SupabaseAuthRepository.signUp { resp with session := s } now =
        SupabaseAuthRepository.signUp resp now) ∧
    (∀ (resp : SupabaseAuthRepository.SignUpResponse) (now : Nat)
       (r : SupabaseAuthRepository.SignUpResult),
      SupabaseAuthRepository.signUp resp now = Except.ok r →
      ∃ u, resp.user = some u ∧
        SupabaseAuthRepository.mapSupabaseUserToAuthUser u now = Except.ok r.user) := by
  constructor
  · intro resp now s
    obtain ⟨u0, s0, err0⟩ := resp
    rfl
  · intro resp now r h
    obtain ⟨u0, s0, err0⟩ := resp
    cases err0 with
    | some pe =>
      simp only [SupabaseAuthRepository.signUp] at h
      split at h <;> cases h
    | none =>
      cases u0 with
      | none =>
        simp only [SupabaseAuthRepository.signUp] at h
        cases h
      | some u =>
        simp only [SupabaseAuthRepository.signUp] at h
        split at h
        · cases h
        · cases hm : SupabaseAuthRepository.mapSupabaseUserToAuthUser u now with
          | error e =>
            rw [hm] at h
            cases h
          | ok au =>
            rw [hm] at h
            cases h
            exact ⟨u, rfl, hm⟩

/-- Witness for C5: instantiates both clauses, showing a response carrying a
session still sign-ups to a user-only result. -/
theorem signUp_never_returns_session_witness :
    (SupabaseAuthRepository.signUp
        { user := some { id := "u9", email := some "w@x.y", created_at := none,
                         updated_at := none, identities := some ["i1"] },
          session := some { access_token := "at", refresh_token := "rt",
                            expires_at := some 10,
                            user := { id := "u9", email := some "w@x.y", created_at := none,
                                      updated_at := none, identities := some ["i1"] } },
          error := none } 3 =
      SupabaseAuthRepository.signUp
        { user := some { id := "u9", email := some "w@x.y", created_at := none,
                         updated_at := none, identities := some ["i1"] },
          session := none, error := none } 3) ∧
    ∃ u, (some { id := "u9", email := some "w@x.y", created_at := none,
                 updated_at := none, identities := some ["i1"] } : Option SupaUser) = some u ∧
      SupabaseAuthRepository.mapSupabaseUserToAuthUser u 3 =
        Except.ok { id := "u9", email := "w@x.y",
                    createdAt := JsDate.ofMillis 3, updatedAt := JsDate.ofMillis 3 } := by
  constructor
  · exact signUp_never_returns_session.1
      { user := some { id := "u9", email := some "w@x.y", created_at := none,
                       updated_at := none, identities := some ["i1"] },
        session := none, error := none } 3
      (some { access_token := "at", refresh_token := "rt", expires_at := some 10,
              user := { id := "u9", email := some "w@x.y", created_at := none,
                        updated_at := none, identities := some ["i1"] } })
  · exact signUp_never_returns_session.2
      { user := some { id := "u9", email := some "w@x.y", created_at := none,
                       updated_at := none, identities := some ["i1"] },
        session := none, error := none } 3
      { user := { id := "u9", email := "w@x.y",
                  createdAt := JsDate.ofMillis 3, updatedAt := JsDate.ofMillis 3 } }
      (by rfl)

/-- Mapping failures of the repository user mapper carry no code. -/
theorem repo_mapUser_error_code :
    ∀ (u : SupaUser) (now : Nat) (e : AuthErrorWithCode),
      SupabaseAuthRepository.mapSupabaseUserToAuthUser u now = Except.error e →
      e.code = none := by
  intro u now e h
  simp only [SupabaseAuthRepository.mapSupabaseUserToAuthUser] at h
  split at h
  · cases h
  · cases h
    rfl

/-- Mapping failures of the repository session mapper carry no code. -/
theorem repo_mapSession_error_code :
    ∀ (s : SupaSession) (now : Nat) (e : AuthErrorWithCode),
      SupabaseAuthRepository.mapSupabaseSessionToAuthSession s now = Except.error e →
      e.code = none := by
  intro s now e h
  simp only [SupabaseAuthRepository.mapSupabaseSessionToAuthSession] at h
  cases hm : SupabaseAuthRepository.mapSupabaseUserToAuthUser s.user now with
  | error eu =>
    rw [hm] at h
    cases h
    exact repo_mapUser_error_code s.user now _ hm
  | ok au =>
    rw [hm] at h
    cases h

/-- Counterexample for C8: a `signIn` provider error carrying the native
code `weak_password` — outside the three-element taxonomy — surfaces with
that code set, not with `code` unset. -/
theorem signIn_passes_unknown_native_code_through :
    SupabaseAuthRepository.signIn
        { user := none, session := none,
          error := some { code := some "weak_password",
                          message := "Password should be at least 6 characters" } } 0 =
      Except.error { message := "Password should be at least 6 characters",
                     code := some "weak_password" } ∧
    (["user_already_exists", "email_not_confirmed",
      "invalid_login_credentials"].contains "weak_password") = false ∧
    (some "weak_password" : Option String) ≠ none := by
  refine ⟨rfl, rfl, ?_⟩
  intro h
  cases h

/-- C8 (amended): every error surfaced by a failed adapter operation carries
one of the three stable codes, or a provider-native code copied verbatim
from the provider error, or no code at all; operations other than `signIn`
and `signUp` never attach a code, and a resolving `requestPasswordReset`
never fails. -/
theorem adapter_code_taxonomy :
    (∀ (resp : SupabaseAuthRepository.SignInResponse) (now : Nat) (e : AuthErrorWithCode),
      SupabaseAuthRepository.signIn resp now = Except.error e →
      e.code = none ∨ e.code = some "email_not_confirmed" ∨
      e.code = some "invalid_login_credentials" ∨
      ∃ pe, resp.error = some pe ∧ e.code = pe.code) ∧
    (∀ (resp : SupabaseAuthRepository.SignUpResponse) (now : Nat) (e : AuthErrorWithCode),
      SupabaseAuthRepository.signUp resp now = Except.error e →
      e.code = none ∨ e.code = some "user_already_exists" ∨
      ∃ pe, resp.error = some pe ∧ e.code = pe.code) ∧
    (∀ (resp : SupabaseAuthRepository.GetUserResponse) (now : Nat) (e : AuthErrorWithCode),
      SupabaseAuthRepository.getCurrentUser resp now = Except.error e → e.code = none) ∧
    (∀ (resp : SupabaseAuthRepository.GetSessionResponse) (now : Nat) (e : AuthErrorWithCode),
      SupabaseAuthRepository.getSession resp now = Except.error e → e.code = none) ∧
    (∀ (resp : SupabaseAuthRepository.ErrorOnlyResponse) (e : AuthErrorWithCode),
      SupabaseAuthRepository.signOut resp = Except.error e → e.code = none) ∧
    (∀ (resp : SupabaseAuthRepository.ErrorOnlyResponse) (e : AuthErrorWithCode),
      SupabaseAuthRepository.updatePassword resp = Except.error e → e.code = none) ∧
    (∀ r : SupabaseAuthRepository.ErrorOnlyResponse,
      SupabaseAuthRepository.requestPasswordReset
        (SupabaseAuthRepository.ProviderCallOutcome.resolves r) = Except.ok ()) := by
  refine ⟨?_, ?_, ?_, ?_, ?_, ?_, ?_⟩
  · intro resp now e h
    obtain ⟨u0, s0, err0⟩ := resp
    cases err0 with
    | some pe =>
      simp only [SupabaseAuthRepository.signIn] at h
      cases h
      split
      · exact Or.inr (Or.inr (Or.inr ⟨pe, rfl, rfl⟩))
      · split
        · exact Or.inr (Or.inl rfl)
        · split
          · exact Or.inr (Or.inr (Or.inl rfl))
          · exact Or.inl rfl
    | none =>
      cases u0 with
      | none =>
        cases s0 with
        | none =>
          simp only [SupabaseAuthRepository.signIn] at h
          cases h
          exact Or.inl rfl
        | some s =>
          simp only [SupabaseAuthRepository.signIn] at h
          cases h
          exact Or.inl rfl
      | some u =>
        cases s0 with
        | none =>
          simp only [SupabaseAuthRepository.signIn] at h
          cases h
          exact Or.inl rfl
        | some s =>
          simp only [SupabaseAuthRepository.signIn] at h
          cases hm : SupabaseAuthRepository.mapSupabaseUserToAuthUser u now with
          | error eu =>
            rw [hm] at h
            cases h
            exact Or.inl (repo_mapUser_error_code u now _ hm)
          | ok au =>
            rw [hm] at h
            cases hs : SupabaseAuthRepository.mapSupabaseSessionToAuthSession s now with
            | error es =>
              rw [hs] at h
              cases h
              exact Or.inl (repo_mapSession_error_code s now _ hs)
            | ok as0 =>
              rw [hs] at h
              cases h
  · intro resp now e h
    obtain ⟨u0, s0, err0⟩ := resp
    cases err0 with
    | some pe =>
      simp only [SupabaseAuthRepository.signUp] at h
      split at h
      · cases h
        exact Or.inr (Or.inl rfl)
      · cases h
        cases hc : jsStrTruthy pe.code with
        | true =>
          refine Or.inr (Or.inr ⟨pe, rfl, ?_⟩)
          simp [createAuthError, hc]
        | false =>
          left
          simp [createAuthError, hc]
    | none =>
      cases u0 with
      | none =>
        simp only [SupabaseAuthRepository.signUp] at h
        cases h
        exact Or.inl rfl
      | some u =>
        simp only [SupabaseAuthRepository.signUp] at h
        split at h
        · cases h
          exact Or.inr (Or.inl rfl)
        · cases hm : SupabaseAuthRepository.mapSupabaseUserToAuthUser u now with
          | error eu =>
            rw [hm] at h
            cases h
            exact Or.inl (repo_mapUser_error_code u now _ hm)
          | ok au =>
            rw [hm] at h
            cases h
  · intro resp now e h
    obtain ⟨u0, err0⟩ := resp
    cases err0 with
    | some pe =>
      simp only [SupabaseAuthRepository.getCurrentUser] at h
      cases h
      rfl
    | none =>
      cases u0 with
      | none =>
        simp only [SupabaseAuthRepository.getCurrentUser] at h
        cases h
      | some u =>
        simp only [SupabaseAuthRepository.getCurrentUser] at h
        cases hm : SupabaseAuthRepository.mapSupabaseUserToAuthUser u now with
        | error eu =>
          rw [hm] at h
          cases h
          exact repo_mapUser_error_code u now _ hm
        | ok au =>
          rw [hm] at h
          cases h
  · intro resp now e h
    obtain ⟨s0, err0⟩ := resp
    cases err0 with
    | some pe =>
      simp only [SupabaseAuthRepository.getSession] at h
      cases h
      rfl
    | none =>
      cases s0 with
      | none =>
        simp only [SupabaseAuthRepository.getSession] at h
        cases h
      | some s =>
        simp only [SupabaseAuthRepository.getSession] at h
        cases hm : SupabaseAuthRepository.mapSupabaseSessionToAuthSession s now with
        | error es =>
          rw [hm] at h
          cases h
          exact repo_mapSession_error_code s now _ hm
        | ok a =>
          rw [hm] at h
          cases h
  · intro resp e h
    obtain ⟨err0⟩ := resp
    cases err0 with
    | some pe =>
      simp only [SupabaseAuthRepository.signOut] at h
      cases h
      rfl
    | none =>
      simp only [SupabaseAuthRepository.signOut] at h
      cases h
  · intro resp e h
    obtain ⟨err0⟩ := resp
    cases err0 with
    | some pe =>
      simp only [SupabaseAuthRepository.updatePassword] at h
      cases h
      rfl
    | none =>
      simp only [SupabaseAuthRepository.updatePassword] at h
      cases h
  · intro r
    rfl

/-- Witness for C8 (amended): instantiates the signIn clause at an uncoded
unmatched provider failure and the updatePassword clause at a provider
error. -/
theorem adapter_code_taxonomy_witness :
    (({ message := "boom", code := none } : AuthErrorWithCode).code = none ∨
     ({ message := "boom", code := none } : AuthErrorWithCode).code = some "email_not_confirmed" ∨
     ({ message := "boom", code := none } : AuthErrorWithCode).code = some "invalid_login_credentials" ∨
     ∃ pe, (some { code := none, message := "boom" } : Option SupabaseErrorLike) = some pe ∧
       ({ message := "boom", code := none } : AuthErrorWithCode).code = pe.code) ∧
    ({ message := "nope", code := none } : AuthErrorWithCode).code = none := by
  constructor
  · exact adapter_code_taxonomy.1
      { user := none, session := none, error := some { code := none, message := "boom" } } 0
      { message := "boom", code := none } (by rfl)
  · exact adapter_code_taxonomy.2.2.2.2.2.1
      { error := some { code := none, message := "nope" } }
      { message := "nope", code := none } (by rfl)

/-- C10: the server-side session reader is total over provider outcomes (its
`Option` codomain is throw-free by construction): it returns null on a
provider error, on an absent session, and on a session whose user lacks a
(truthy) email, and returns the mapped `AuthSession` exactly when the
provider reports a session whose user has an email. -/
theorem serverGetSession_total :
    ∀ (resp : SupabaseAuthRepository.GetSessionResponse) (now : Nat),
      (∀ pe, resp.error = some pe → ServerSession.getSession resp now = none) ∧
      (resp.error = none → resp.session = none →
        ServerSession.getSession resp now = none) ∧
      (∀ s, resp.error = none → resp.session = some s →
        jsStrTruthy s.user.email = false → ServerSession.getSession resp now = none) ∧
      (∀ s, resp.error = none → resp.session = some s →
        jsStrTruthy s.user.email = true →
        ServerSession.getSession resp now =
          some { accessToken := s.access_token,
                 refreshToken := s.refresh_token,
                 expiresAt := dateFromOptUnixSeconds s.expires_at now,
                 user := { id := s.user.id,
                           email := s.user.email.getD "",
                           createdAt := dateFromOptString s.user.created_at now,
                           updatedAt := dateFromOptString s.user.updated_at now } }) := by
  intro resp now
  obtain ⟨s0, err0⟩ := resp
  refine ⟨?_, ?_, ?_, ?_⟩
  · intro pe h
    simp only at h
    subst h
    rfl
  · intro herr hsess
    simp only at herr hsess
    subst herr
    subst hsess
    rfl
  · intro s herr hsess hemail
    simp only at herr hsess
    subst herr
    subst hsess
    simp [ServerSession.getSession, hemail]
  · intro s herr hsess hemail
    simp only at herr hsess
    subst herr
    subst hsess
    simp [ServerSession.getSession, hemail]

/-- Witness for C10: instantiates all four clauses at concrete provider
responses. -/
theorem serverGetSession_total_witness :
    ServerSession.getSession
        { session := none, error := some { code := none, message := "bad cookie" } } 0 = none ∧
    ServerSession.getSession { session := none, error := none } 0 = none ∧
    ServerSession.getSession
        { session := some { access_token := "a", refresh_token := "r", expires_at := none,
                            user := { id := "u", email := none, created_at := none,
                                      updated_at := none, identities := none } },
          error := none } 0 = none ∧
    ServerSession.getSession
        { session := some { access_token := "a", refresh_token := "r", expires_at := some 5,
                            user := { id := "u", email := some "m@n.o", created_at := none,
                                      updated_at := none, identities := none } },
          error := none } 2 =
      some { accessToken := "a", refreshToken := "r",
             expiresAt := dateFromOptUnixSeconds (some 5) 2,
             user := { id := "u", email := (some "m@n.o").getD "",
                       createdAt := dateFromOptString none 2,
                       updatedAt := dateFromOptString none 2 } } := by
  refine ⟨?_, ?_, ?_, ?_⟩
  · exact (serverGetSession_total
      { session := none, error := some { code := none, message := "bad cookie" } } 0).1
      { code := none, message := "bad cookie" } rfl
  · exact (serverGetSession_total { session := none, error := none } 0).2.1 rfl rfl
  · exact (serverGetSession_total
      { session := some { access_token := "a", refresh_token := "r", expires_at := none,
                          user := { id := "u", email := none, created_at := none,
                                    updated_at := none, identities := none } },
        error := none } 0).2.2.1
      { access_token := "a", refresh_token := "r", expires_at := none,
        user := { id := "u", email := none, created_at := none,
                  updated_at := none, identities := none } } rfl rfl (by decide)
  · exact (serverGetSession_total
      { session := some { access_token := "a", refresh_token := "r", expires_at := some 5,
                          user := { id := "u", email := some "m@n.o", created_at := none,
                                    updated_at := none, identities := none } },
        error := none } 2).2.2.2
      { access_token := "a", refresh_token := "r", expires_at := some 5,
        user := { id := "u", email := some "m@n.o", created_at := none,
                  updated_at := none, identities := none } } rfl rfl (by decide)

/-- Counterexample for C7: the claim asserts that a provider user without an
email makes every mapping path fail with a thrown error, including the
server-side session reader; but the server-side reader silently converts
this case to the absent-session result `null` (its codomain cannot throw at
all). -/
theorem serverGetSession_missing_email_returns_null :
    ServerSession.getSession
        { session := some { access_token := "at", refresh_token := "rt", expires_at := some 1,
                            user := { id := "u1", email := none, created_at := none,
                                      updated_at := none, identities := none } },
          error := none } 0 = none := by
  rfl

/-- C7 (amended): a provider user payload lacking a (truthy) email makes the
client-side mapping paths — the repository mapper and the observer mapper —
throw the mapping error, while the server-side session reader instead
returns null for a session whose user lacks an email. -/
theorem missing_email_mapping_behaviour :
    (∀ (u : SupaUser) (now : Nat), jsStrTruthy u.email = false →
      SupabaseAuthRepository.mapSupabaseUserToAuthUser u now =
        Except.error { message := "User email is missing", code := none }) ∧
    (∀ (u : SupaUser) (now : Nat), jsStrTruthy u.email = false →
      SupabaseAuthStateObserver.mapSupabaseUserToAuthUser u now =
        Except.error { message := "User email is missing", code := none }) ∧
    (∀ (resp : SupabaseAuthRepository.GetSessionResponse) (s : SupaSession) (now : Nat),
      resp.error = none → resp.session = some s → jsStrTruthy s.user.email = false →
      ServerSession.getSession resp now = none) := by
  refine ⟨?_, ?_, ?_⟩
  · intro u now h
    simp [SupabaseAuthRepository.mapSupabaseUserToAuthUser, h]
  · intro u now h
    simp [SupabaseAuthStateObserver.mapSupabaseUserToAuthUser, h]
  · intro resp s now herr hsess hemail
    obtain ⟨s0, err0⟩ := resp
    simp only at herr hsess
    subst herr
    subst hsess
    simp [ServerSession.getSession, hemail]

/-- Witness for C7 (amended): instantiates all three clauses at a concrete
email-less user. -/
theorem missing_email_mapping_behaviour_witness :
    SupabaseAuthRepository.mapSupabaseUserToAuthUser
        { id := "nx", email := some "", created_at := none,
          updated_at := none, identities := none } 4 =
      Except.error { message := "User email is missing", code := none } ∧
    SupabaseAuthStateObserver.mapSupabaseUserToAuthUser
        { id := "nx", email := none, created_at := none,
          updated_at := none, identities := none } 4 =
      Except.error { message := "User email is missing", code := none } ∧
    ServerSession.getSession
        { session := some { access_token := "a", refresh_token := "r", expires_at := none,
                            user := { id := "nx", email := some "", created_at := none,
                                      updated_at := none, identities := none } },
          error := none } 4 = none := by
  refine ⟨?_, ?_, ?_⟩
  · exact missing_email_mapping_behaviour.1
      { id := "nx", email := some "", created_at := none,
        updated_at := none, identities := none } 4 (by decide)
  · exact missing_email_mapping_behaviour.2.1
      { id := "nx", email := none, created_at := none,
        updated_at := none, identities := none } 4 (by decide)
  · exact missing_email_mapping_behaviour.2.2
      { session := some { access_token := "a", refresh_token := "r", expires_at := none,
                          user := { id := "nx", email := some "", created_at := none,
                                    updated_at := none, identities := none } },
        error := none }
      { access_token := "a", refresh_token := "r", expires_at := none,
        user := { id := "nx", email := some "", created_at := none,
                  updated_at := none, identities := none } } 4 rfl rfl (by decide)

/-- Successful observer state-change handling always yields a state
satisfying the invariant and never a loading state. -/
theorem handle_ok_invariant :
    ∀ (ev : String) (s : Option SupaSession) (now : Nat) (st : AuthState),
      SupabaseAuthStateObserver.handleAuthStateChange ev s now = Except.ok st →
      stateInvariant st ∧ st.status ≠ AuthStatus.loading := by
  intro ev s now st h
  cases s with
  | none =>
    simp only [SupabaseAuthStateObserver.handleAuthStateChange] at h
    cases h
    exact ⟨by decide, by decide⟩
  | some ss =>
    simp only [SupabaseAuthStateObserver.handleAuthStateChange] at h
    cases hu : SupabaseAuthStateObserver.mapSupabaseUserToAuthUser ss.user now with
    | error e =>
      rw [hu] at h
      cases h
    | ok user =>
      rw [hu] at h
      cases hs : SupabaseAuthStateObserver.mapSupabaseSessionToAuthSession ss now with
      | error e =>
        rw [hs] at h
        cases h
      | ok session =>
        rw [hs] at h
        cases h
        refine ⟨⟨?_, ?_⟩, ?_⟩
        · constructor
          · intro hx
            exact ⟨by simp, by simp⟩
          · intro hx
            rfl
        · intro hx
          cases hx
        · intro hx
          cases hx

/-- Single observer steps preserve the strengthened invariant and only
deliver good states to listeners. -/
theorem step_preserves_good :
    ∀ (m : SupabaseAuthStateObserver.ObserverModel)
      (op : SupabaseAuthStateObserver.ObserverOp) (now : Nat),
      goodState m.state →
      goodState (SupabaseAuthStateObserver.step m op now).1.state ∧
      ∀ c ∈ (SupabaseAuthStateObserver.step m op now).2, goodState c.2 := by
  intro m op now hm
  cases op with
  | subscribeOp id =>
    refine ⟨hm, ?_⟩
    intro c hc
    simp only [SupabaseAuthStateObserver.step, List.mem_singleton] at hc
    subst hc
    exact hm
  | unsubscribeOp id =>
    refine ⟨hm, ?_⟩
    intro c hc
    simp only [SupabaseAuthStateObserver.step, List.not_mem_nil] at hc
  | providerEvent ev s =>
    cases hh : SupabaseAuthStateObserver.handleAuthStateChange ev s now with
    | ok ns =>
      have hg := handle_ok_invariant ev s now ns hh
      constructor
      · simp only [SupabaseAuthStateObserver.step, hh]
        exact ⟨hg.1, fun hl => absurd hl hg.2⟩
      · intro c hc
        simp only [SupabaseAuthStateObserver.step, hh, List.mem_map] at hc
        obtain ⟨id, _, hceq⟩ := hc
        subst hceq
        exact ⟨hg.1, fun hl => absurd hl hg.2⟩
    | error e =>
      constructor
      · simp only [SupabaseAuthStateObserver.step, hh]
        exact hm
      · intro c hc
        simp only [SupabaseAuthStateObserver.step, hh, List.not_mem_nil] at hc

/-- Runs of observer stimuli preserve the strengthened invariant and only
deliver good states. -/
theorem run_preserves_good :
    ∀ (ops : List SupabaseAuthStateObserver.ObserverOp)
      (m : SupabaseAuthStateObserver.ObserverModel) (now : Nat),
      goodState m.state →
      goodState (SupabaseAuthStateObserver.run m ops now).1.state ∧
      ∀ c ∈ (SupabaseAuthStateObserver.run m ops now).2, goodState c.2 := by
  intro ops
  induction ops with
  | nil =>
    intro m now hm
    refine ⟨hm, ?_⟩
    intro c hc
    simp only [SupabaseAuthStateObserver.run, List.not_mem_nil] at hc
  | cons op rest ih =>
    intro m now hm
    have hs := step_preserves_good m op now hm
    have hr := ih (SupabaseAuthStateObserver.step m op now).1 now hs.1
    constructor
    · simpa only [SupabaseAuthStateObserver.run] using hr.1
    · intro c hc
      simp only [SupabaseAuthStateObserver.run, List.mem_append] at hc
      cases hc with
      | inl h => exact hs.2 c h
      | inr h => exact hr.2 c h

/-- C4: the initial store value is the loading state and satisfies the
invariant; every state produced by a successful provider event satisfies it
and is never loading; and over every run of the observer, both the held
state and every value delivered to a listener satisfy the invariant, with a
loading status occurring only as the pristine initial value. -/
theorem authState_store_invariant :
    (stateInvariant SupabaseAuthStateObserver.initialState ∧
      SupabaseAuthStateObserver.initialState.status = AuthStatus.loading) ∧
    (∀ (ev : String) (s : Option SupaSession) (now : Nat) (st : AuthState),
      SupabaseAuthStateObserver.handleAuthStateChange ev s now = Except.ok st →
      stateInvariant st ∧ st.status ≠ AuthStatus.loading) ∧
    (∀ (ops : List SupabaseAuthStateObserver.ObserverOp) (now : Nat),
      stateInvariant
        (SupabaseAuthStateObserver.run SupabaseAuthStateObserver.initialObserver ops now).1.state ∧
      ((SupabaseAuthStateObserver.run
          SupabaseAuthStateObserver.initialObserver ops now).1.state.status = AuthStatus.loading →
        (SupabaseAuthStateObserver.run
          SupabaseAuthStateObserver.initialObserver ops now).1.state =
          SupabaseAuthStateObserver.initialState)) ∧
    (∀ (ops : List SupabaseAuthStateObserver.ObserverOp) (now : Nat)
       (c : Nat × AuthState),
      c ∈ (SupabaseAuthStateObserver.run SupabaseAuthStateObserver.initialObserver ops now).2 →
      stateInvariant c.2 ∧
      (c.2.status = AuthStatus.loading → c.2 = SupabaseAuthStateObserver.initialState)) := by
  refine ⟨⟨by decide, rfl⟩, handle_ok_invariant, ?_, ?_⟩
  · intro ops now
    exact (run_preserves_good ops SupabaseAuthStateObserver.initialObserver now
      ⟨by decide, fun _ => rfl⟩).1
  · intro ops now c hc
    exact (run_preserves_good ops SupabaseAuthStateObserver.initialObserver now
      ⟨by decide, fun _ => rfl⟩).2 c hc

/-- Witness for C4: instantiates the provider-event clause at a signed-out
event and the delivered-calls clause at a run consisting of one subscription
(whose replay delivers the initial loading value). -/
theorem authState_store_invariant_witness :
    (stateInvariant
        ({ user := none, session := none, status := AuthStatus.unauthenticated } : AuthState) ∧
      ({ user := none, session := none, status := AuthStatus.unauthenticated } : AuthState).status ≠
        AuthStatus.loading) ∧
    (stateInvariant
        ((0 : Nat), SupabaseAuthStateObserver.initialState).2 ∧
      (((0 : Nat), SupabaseAuthStateObserver.initialState).2.status = AuthStatus.loading →
        ((0 : Nat), SupabaseAuthStateObserver.initialState).2 =
          SupabaseAuthStateObserver.initialState)) := by
  constructor
  · exact authState_store_invariant.2.1 "SIGNED_OUT" none 0
      { user := none, session := none, status := AuthStatus.unauthenticated } rfl
  · exact authState_store_invariant.2.2.2
      [SupabaseAuthStateObserver.ObserverOp.subscribeOp 0] 0
      ((0 : Nat), SupabaseAuthStateObserver.initialState) (by decide)

/-- Runs decompose over list concatenation: the final observer is obtained
by running the second batch from the midpoint, and the delivered calls are
the first trace followed by the second. -/
theorem run_append :
    ∀ (l1 l2 : List SupabaseAuthStateObserver.ObserverOp)
      (m : SupabaseAuthStateObserver.ObserverModel) (now : Nat),
      SupabaseAuthStateObserver.run m (l1 ++ l2) now =
        ((SupabaseAuthStateObserver.run
            (SupabaseAuthStateObserver.run m l1 now).1 l2 now).1,
          (SupabaseAuthStateObserver.run m l1 now).2 ++
            (SupabaseAuthStateObserver.run
              (SupabaseAuthStateObserver.run m l1 now).1 l2 now).2) := by
  intro l1
  induction l1 with
  | nil =>
    intro l2 m now
    simp only [List.nil_append, SupabaseAuthStateObserver.run]
  | cons op rest ih =>
    intro l2 m now
    simp only [List.cons_append, SupabaseAuthStateObserver.run, List.append_eq, ih,
      List.append_assoc]

/-- C6: in any run, a `subscribe` call delivers to the new listener exactly
one call, carrying the snapshot current at subscription time, placed after
every call of the preceding stimuli and before every call produced by
subsequent stimuli. -/
theorem subscribe_replays_snapshot :
    ∀ (pre : List SupabaseAuthStateObserver.ObserverOp) (id : Nat)
      (post : List SupabaseAuthStateObserver.ObserverOp) (now : Nat),
      (SupabaseAuthStateObserver.run SupabaseAuthStateObserver.initialObserver
          (pre ++ SupabaseAuthStateObserver.ObserverOp.subscribeOp id :: post) now).2 =
        (SupabaseAuthStateObserver.run SupabaseAuthStateObserver.initialObserver pre now).2 ++
        (id, SupabaseAuthStateObserver.getSnapshot
            (SupabaseAuthStateObserver.run SupabaseAuthStateObserver.initialObserver pre now).1) ::
        (SupabaseAuthStateObserver.run
            (SupabaseAuthStateObserver.step
              (SupabaseAuthStateObserver.run SupabaseAuthStateObserver.initialObserver pre now).1
              (SupabaseAuthStateObserver.ObserverOp.subscribeOp id) now).1
            post now).2 := by
  intro pre id post now
  rw [run_append]
  simp only [SupabaseAuthStateObserver.run, SupabaseAuthStateObserver.step,
    List.cons_append, List.nil_append]
